import Mathlib

/-!
# Shallow embedding of the mini-CRM appeal-routing service (src/main.py)

Tables become lists of records; SQLite autoincrement ids become explicit
counters carried in the database state.  Python integers are `Int`
(unbounded).  The fallible selection step of `create_appeal` (which can
raise `ValueError` from `zip(*[])` unpacking) returns `Except Unit`.
The ambient randomness of `random.choices` is an explicit `Nat` parameter,
reduced modulo the total weight; the ambient timestamp is a `String`
parameter.
-/

namespace MiniCRM

/-- Row of `tbl_operators`. -/
structure Operator where
  id : Int
  name : String
  is_active : Bool
  max_load : Int
  deriving DecidableEq, Repr

/-- Row of `tbl_sources`. -/
structure Source where
  id : Int
  name : String
  deriving DecidableEq, Repr

/-- Row of `tbl_operator_sources` (affinity of an operator for a source). -/
structure OperatorSource where
  id : Int
  operator_id : Int
  source_id : Int
  weight : Int
  deriving DecidableEq, Repr

/-- Row of `tbl_leads`. -/
structure Lead where
  id : Int
  external_id : String
  deriving DecidableEq, Repr

/-- Row of `tbl_appeals`.  `operator_id` is nullable. -/
structure Appeal where
  id : Int
  lead_id : Int
  source_id : Int
  operator_id : Option Int
  timestamp : String
  message : Option String
  deriving DecidableEq, Repr

/-- The whole database state, with the autoincrement counters for the two
tables the assignment path inserts into. -/
structure DB where
  operators : List Operator
  sources : List Source
  operatorSources : List OperatorSource
  leads : List Lead
  appeals : List Appeal
  nextLeadId : Int
  nextAppealId : Int
  deriving DecidableEq, Repr

/-- Request body of `POST /appeals/` (`AppealCreate`). -/
structure AppealCreate where
  external_id : String
  source_id : Int
  message : Option String
  deriving DecidableEq, Repr

/-- The `load` column of the grouped subquery in `create_appeal`
(src/main.py:230): the number of appeal rows whose `operator_id` equals the
given operator id.  An operator with no appeal rows has no group, i.e. a
`NULL` load in the outer join; here that is exactly `loadOf = 0`. -/
def loadOf (db : DB) (opId : Int) : Nat :=
  (db.appeals.filter (fun a => a.operator_id == some opId)).length

/-- The capacity condition of the candidate query (src/main.py:236):
`(subquery.c.load < Operator.max_load) | (subquery.c.load.is_(None))`.
The `NULL` branch is the absence of a group, i.e. `loadOf db op.id = 0`. -/
def capacityOk (db : DB) (op : Operator) : Bool :=
  decide ((loadOf db op.id : Int) < op.max_load) || loadOf db op.id == 0

/-- The candidate query of `create_appeal` (src/main.py:230-237):
`Operator JOIN OperatorSource ON Operator.id = OperatorSource.operator_id`,
left-outer-joined with the load subquery, filtered on the request's
`source_id`, `is_active == True` and the capacity condition; each result row
is `(Operator, OperatorSource.weight)`. -/
def candidates (db : DB) (src : Int) : List (Operator × Int) :=
  db.operators.flatMap (fun op =>
    db.operatorSources.filterMap (fun os =>
      if os.operator_id == op.id && os.source_id == src &&
          op.is_active && capacityOk db op
      then some (op, os.weight) else none))

/-- `random.choices(weights, weights=weights, k=1)[0]` (src/main.py:244):
draws one element of `weights` with probability proportional to it.  The
caller supplies `r` already reduced into `[0, total)`; the element whose
cumulative-weight interval contains `r` is returned. -/
def drawWeight : List Int → Nat → Int
  | [], _ => 0
  | w :: ws, r => if (r : Int) < w || ws.isEmpty then w else drawWeight ws (r - w.toNat)

/-- The selection step of `create_appeal` (src/main.py:239-246).

* Empty candidate list: the `if candidates:` guard is skipped and
  `operator_id` stays `None`.
* Non-empty candidates but none with `weight > 0`: the comprehension is
  empty and `operators, weights = zip(*[])` raises `ValueError`
  (modelled as `.error ()`).
* Otherwise a weight value is drawn proportionally, mapped back to an index
  with `weights.index(chosen_weight)` — i.e. the FIRST index holding that
  value — and the operator id at that index is returned. -/
def selectOperator (cands : List (Operator × Int)) (r : Nat) :
    Except Unit (Option Int) :=
  if cands.isEmpty then .ok none
  else
    let filtered := cands.filter (fun c => 0 < c.2)
    if filtered.isEmpty then .error ()
    else
      let operators := filtered.map (fun c => c.1.id)
      let weights := filtered.map (fun c => c.2)
      let total : Int := weights.foldl (fun a b => a + b) 0
      if 0 < total then
        let chosen_weight := drawWeight weights (r % total.toNat)
        let index := weights.indexOf chosen_weight
        .ok (some (operators.getD index 0))
      else
        .ok none

/-- The find-or-create step for the lead (src/main.py:222-227): look the
lead up by `external_id`; if absent, insert one (this insert is committed
before the selection step runs). -/
def findOrCreateLead (db : DB) (ext : String) : DB × Lead :=
  match db.leads.find? (fun l => l.external_id == ext) with
  | some l => (db, l)
  | none =>
      let l : Lead := ⟨db.nextLeadId, ext⟩
      ({ db with leads := db.leads ++ [l], nextLeadId := db.nextLeadId + 1 }, l)

/-- The read half of `create_appeal`: resolve the lead (committing it if
new) and run the candidate query plus the selection step on the state so
obtained.  Returns the state after the lead commit, the lead id, and the
selection outcome. -/
def appealReadPhase (db : DB) (req : AppealCreate) (r : Nat) :
    DB × Int × Except Unit (Option Int) :=
  let p := findOrCreateLead db req.external_id
  (p.1, p.2.id, selectOperator (candidates p.1 req.source_id) r)

/-- The write half of `create_appeal` (src/main.py:249-258): if the
selection step raised, the request aborts with no appeal row; otherwise an
appeal row is inserted and committed with the chosen (possibly null)
operator. -/
def appealWritePhase (db : DB) (req : AppealCreate) (leadId : Int)
    (sel : Except Unit (Option Int)) (ts : String) : DB × Except Unit Appeal :=
  match sel with
  | .error e => (db, .error e)
  | .ok opId =>
      let ap : Appeal :=
        ⟨db.nextAppealId, leadId, req.source_id, opId, ts, req.message⟩
      ({ db with appeals := db.appeals ++ [ap],
                 nextAppealId := db.nextAppealId + 1 }, .ok ap)

/-- `POST /appeals/` (src/main.py:219-259), as the sequential composition
of the read phase and the write phase.  Returns the final database state
(the lead commit persists even when the selection step raises) and either
the created appeal or the error. -/
def create_appeal (db : DB) (req : AppealCreate) (r : Nat) (ts : String) :
    DB × Except Unit Appeal :=
  let t := appealReadPhase db req r
  appealWritePhase t.1 req t.2.1 t.2.2 ts

/-- `GET /operator-sources/` (src/main.py:211-215).  The Python guard
`if source_id:` applies the filter only for a present, non-zero value. -/
def list_operator_sources (db : DB) (source_id : Option Int) :
    List OperatorSource :=
  match source_id with
  | none => db.operatorSources
  | some s =>
      if s ≠ 0 then db.operatorSources.filter (fun os => os.source_id == s)
      else db.operatorSources

/-- Modelled from the spec: the release of load accounting when one of an
operator's appeals completes (spec §4.3 `release`, §8 Scenario D).  The
repository has no completion/release operation — load is the bare count of
appeal rows — so release is modelled as deleting one appeal row currently
attributed to the operator. -/
def releaseOne (db : DB) (opId : Int) : DB :=
  { db with appeals := db.appeals.eraseP (fun a => a.operator_id == some opId) }

/-- Two concurrent `create_appeal` requests, interleaved at the commit
boundary the code actually has: both run their read phase (lead commit,
candidate query, selection) before either runs its write phase (appeal
insert and commit).  SQLite gives each request its own session; nothing in
the code serializes the capacity check against the insert. -/
def interleavedRun (db : DB) (req1 req2 : AppealCreate) (r1 r2 : Nat)
    (ts1 ts2 : String) : DB × Except Unit Appeal × Except Unit Appeal :=
  let t1 := appealReadPhase db req1 r1
  let t2 := appealReadPhase t1.1 req2 r2
  let w1 := appealWritePhase t2.1 req1 t1.2.1 t1.2.2 ts1
  let w2 := appealWritePhase w1.1 req2 t2.2.1 t2.2.2 ts2
  (w2.1, w1.2, w2.2)

/-! ## Concrete database states used by the claim theorems -/

/-- A completely empty database. -/
def emptyDb : DB := ⟨[], [], [], [], [], 1, 1⟩

/-- One active operator linked to source 1 with weight 0 — the only link for
that source. -/
def zeroWeightDb : DB :=
  { operators := [⟨1, "o1", true, 5⟩], sources := [⟨1, "s"⟩],
    operatorSources := [⟨1, 1, 1, 0⟩], leads := [], appeals := [],
    nextLeadId := 1, nextAppealId := 1 }

/-- Two active operators linked to source 1 with the same weight 5. -/
def tieDb : DB :=
  { operators := [⟨1, "o1", true, 5⟩, ⟨2, "o2", true, 5⟩], sources := [⟨1, "s"⟩],
    operatorSources := [⟨1, 1, 1, 5⟩, ⟨2, 2, 1, 5⟩], leads := [], appeals := [],
    nextLeadId := 1, nextAppealId := 1 }

/-- One active operator with `max_load = 0` and no appeal rows, linked to
source 1 with weight 3. -/
def zeroMaxLoadDb : DB :=
  { operators := [⟨1, "o1", true, 0⟩], sources := [⟨1, "s"⟩],
    operatorSources := [⟨1, 1, 1, 3⟩], leads := [], appeals := [],
    nextLeadId := 1, nextAppealId := 1 }

/-- One active operator with `max_load = 2` carrying one appeal already:
exactly one free capacity slot. -/
def oneSlotDb : DB :=
  { operators := [⟨1, "o1", true, 2⟩], sources := [⟨1, "s"⟩],
    operatorSources := [⟨1, 1, 1, 1⟩], leads := [⟨1, "l0"⟩],
    appeals := [⟨1, 1, 1, some 1, "t0", none⟩],
    nextLeadId := 2, nextAppealId := 2 }

/-- One active operator with `max_load = 1` carrying one appeal: load equals
`max_load` exactly. -/
def fullDb : DB :=
  { operators := [⟨1, "o1", true, 1⟩], sources := [⟨1, "s"⟩],
    operatorSources := [⟨1, 1, 1, 2⟩], leads := [⟨1, "l0"⟩],
    appeals := [⟨1, 1, 1, some 1, "t0", none⟩],
    nextLeadId := 2, nextAppealId := 2 }

/-! ## Helper lemmas -/

/-- `capacityOk` spelled out: load strictly below capacity, or no appeal row
at all (the `NULL` branch of the outer join). -/
theorem capacityOk_iff (db : DB) (op : Operator) :
    capacityOk db op = true ↔
      ((loadOf db op.id : Int) < op.max_load ∨ loadOf db op.id = 0) := by
  simp [capacityOk]

/-- Membership in the candidate query result, spelled out. -/
theorem mem_candidates_iff (db : DB) (src : Int) (op : Operator) (w : Int) :
    (op, w) ∈ candidates db src ↔
      op ∈ db.operators ∧ op.is_active = true ∧ capacityOk db op = true ∧
      ∃ os, os ∈ db.operatorSources ∧ os.operator_id = op.id ∧
        os.source_id = src ∧ os.weight = w := by
  unfold candidates
  simp only [List.mem_flatMap, List.mem_filterMap]
  constructor
  · rintro ⟨a, ha, os, hos, hif⟩
    by_cases hcond :
        (os.operator_id == a.id && os.source_id == src &&
          a.is_active && capacityOk db a) = true
    · rw [if_pos hcond] at hif
      have hpair : a = op ∧ os.weight = w := by
        have := Option.some.inj hif
        exact ⟨congrArg Prod.fst this, congrArg Prod.snd this⟩
      obtain ⟨rfl, hw⟩ := hpair
      simp only [Bool.and_eq_true, beq_iff_eq] at hcond
      exact ⟨ha, hcond.1.2, hcond.2, os, hos, hcond.1.1.1, hcond.1.1.2, hw⟩
    · rw [if_neg hcond] at hif
      exact absurd hif (by simp)
  · rintro ⟨hop, hact, hcap, os, hos, hoid, hsid, hw⟩
    refine ⟨op, hop, os, hos, ?_⟩
    rw [if_pos (by simp [hoid, hsid, hact, hcap]), hw]

/-- The proportional draw returns an element of a non-empty weight list. -/
theorem drawWeight_mem : ∀ (ws : List Int) (r : Nat), ws ≠ [] → drawWeight ws r ∈ ws
  | [], _, h => absurd rfl h
  | w :: ws, r, _ => by
      rw [drawWeight]
      split
      · exact List.mem_cons_self _ _
      · next hcond =>
          have hne : ws ≠ [] := by
            intro heq
            rw [heq] at hcond
            simp at hcond
          exact List.mem_cons_of_mem _ (drawWeight_mem ws _ hne)

/-- On a pair of equal weights, the draw always returns that weight. -/
theorem drawWeight_pair (w : Int) (m : Nat) : drawWeight [w, w] m = w := by
  rw [drawWeight]
  split
  · rfl
  · rw [drawWeight]
    simp

/-- A successful, assigned selection always returns the id of a candidate
with strictly positive weight. -/
theorem selectOperator_ok_some (cands : List (Operator × Int)) (r : Nat) (i : Int)
    (h : selectOperator cands r = .ok (some i)) :
    ∃ c, c ∈ cands ∧ c.1.id = i ∧ 0 < c.2 := by
  simp only [selectOperator] at h
  split at h
  · simp at h
  · split at h
    · simp at h
    · next hfil =>
      split at h
      · simp only [Except.ok.injEq, Option.some.injEq] at h
        set F := cands.filter (fun c => 0 < c.2) with hF
        set W := F.map (fun c => c.2) with hW
        set O := F.map (fun c => c.1.id) with hO
        set dw := drawWeight W (r % (W.foldl (fun a b => a + b) 0).toNat) with hdw
        have hne : F ≠ [] := by simpa using hfil
        have hwne : W ≠ [] := by
          rw [hW]
          simpa using hne
        have hmem : dw ∈ W := by
          rw [hdw]
          exact drawWeight_mem W _ hwne
        have hidxW : W.indexOf dw < W.length := List.indexOf_lt_length.2 hmem
        have hlt : W.indexOf dw < O.length := by
          rw [hO, List.length_map]
          rw [hW, List.length_map] at hidxW
          exact hidxW
        rw [List.getD_eq_getElem?_getD, List.getElem?_eq_getElem hlt] at h
        simp only [Option.getD_some] at h
        have hmem2 : O[W.indexOf dw] ∈ O := List.getElem_mem hlt
        rw [h, hO] at hmem2
        obtain ⟨c, hc, hcid⟩ := List.mem_map.1 hmem2
        rw [hF] at hc
        obtain ⟨hcand, hpos⟩ := List.mem_filter.1 hc
        exact ⟨c, hcand, hcid, by simpa using hpos⟩
      · simp at h

/-- The find-or-create lead step touches only the lead table and its
counter. -/
theorem findOrCreateLead_frame (db : DB) (ext : String) :
    ((findOrCreateLead db ext).1).operators = db.operators ∧
    ((findOrCreateLead db ext).1).sources = db.sources ∧
    ((findOrCreateLead db ext).1).operatorSources = db.operatorSources ∧
    ((findOrCreateLead db ext).1).appeals = db.appeals ∧
    ((findOrCreateLead db ext).1).nextAppealId = db.nextAppealId := by
  unfold findOrCreateLead
  cases db.leads.find? (fun l => l.external_id == ext) <;> simp

/-- The candidate query is insensitive to the lead find-or-create step. -/
theorem candidates_findOrCreateLead (db : DB) (ext : String) :
    candidates ((findOrCreateLead db ext).1) = candidates db := by
  unfold findOrCreateLead
  cases db.leads.find? (fun l => l.external_id == ext) <;> rfl

/-- After the find-or-create step, a lead with the requested external id is
present and is exactly the lead the step returned. -/
theorem findOrCreateLead_self_found (db : DB) (ext : String) :
    ((findOrCreateLead db ext).1).leads.find? (fun l => l.external_id == ext) =
      some (findOrCreateLead db ext).2 := by
  unfold findOrCreateLead
  cases hf : db.leads.find? (fun l => l.external_id == ext) with
  | some l => simpa using hf
  | none => simp [List.find?_append, hf]

/-- The find-or-create lead step grows the lead table by at most one row. -/
theorem findOrCreateLead_leads_length (db : DB) (ext : String) :
    ((findOrCreateLead db ext).1).leads.length ≤ db.leads.length + 1 := by
  unfold findOrCreateLead
  cases db.leads.find? (fun l => l.external_id == ext) <;> simp

/-- If the lead table already resolves the external id to `l`, the
find-or-create step is a pure lookup. -/
theorem findOrCreateLead_found (db : DB) (ext : String) (l : Lead)
    (h : db.leads.find? (fun x => x.external_id == ext) = some l) :
    findOrCreateLead db ext = (db, l) := by
  unfold findOrCreateLead
  rw [h]

/-- Erasing the first element satisfying `p` decreases the number of
elements satisfying `p` by exactly one, when one exists. -/
theorem length_filter_eraseP {α : Type} (p : α → Bool) :
    ∀ l : List α, (∃ a, a ∈ l ∧ p a = true) →
      ((l.eraseP p).filter p).length + 1 = (l.filter p).length
  | [], h => by simp at h
  | a :: l, h => by
      by_cases hp : p a = true
      · rw [List.eraseP_cons_of_pos hp, List.filter_cons_of_pos hp]
        simp
      · rw [List.eraseP_cons_of_neg hp, List.filter_cons_of_neg hp,
          List.filter_cons_of_neg hp]
        apply length_filter_eraseP p l
        obtain ⟨b, hb, hpb⟩ := h
        rcases List.mem_cons.1 hb with rfl | hbl
        · exact absurd hpb hp
        · exact ⟨b, hbl, hpb⟩

/-- Releasing one of an operator's appeals decreases its load by exactly
one, when it has any. -/
theorem loadOf_releaseOne (db : DB) (opId : Int) (h : 1 ≤ loadOf db opId) :
    loadOf (releaseOne db opId) opId + 1 = loadOf db opId := by
  have hex : ∃ a, a ∈ db.appeals ∧ (a.operator_id == some opId) = true := by
    unfold loadOf at h
    have hne : db.appeals.filter (fun a => a.operator_id == some opId) ≠ [] := by
      intro hnil
      rw [hnil] at h
      simp at h
    obtain ⟨x, hx⟩ := List.exists_mem_of_ne_nil _ hne
    obtain ⟨hx1, hx2⟩ := List.mem_filter.1 hx
    exact ⟨x, hx1, hx2⟩
  exact length_filter_eraseP _ db.appeals hex

/-- Shape of a successful `create_appeal`: the appeal gets the current
appeal counter as id and the resolved lead's id, and is appended to the
appeal table; the lead table is the one the find-or-create step produced. -/
theorem create_appeal_ok_shape (db : DB) (req : AppealCreate) (r : Nat)
    (ts : String) (db2 : DB) (ap : Appeal)
    (h : create_appeal db req r ts = (db2, .ok ap)) :
    ap.id = db.nextAppealId ∧
    ap.lead_id = (findOrCreateLead db req.external_id).2.id ∧
    db2.leads = ((findOrCreateLead db req.external_id).1).leads ∧
    db2.appeals = db.appeals ++ [ap] ∧
    db2.nextAppealId = db.nextAppealId + 1 := by
  obtain ⟨-, -, -, hap, hnext⟩ := findOrCreateLead_frame db req.external_id
  simp only [create_appeal, appealReadPhase] at h
  cases hsel : selectOperator
      (candidates ((findOrCreateLead db req.external_id).1) req.source_id) r with
  | error e =>
      rw [hsel] at h
      simp [appealWritePhase] at h
  | ok opId =>
      rw [hsel] at h
      simp only [appealWritePhase] at h
      injection h with hdb hexc
      injection hexc with hap2
      subst hdb
      subst hap2
      exact ⟨hnext, rfl, rfl, by simp [hap], by simp [hnext]⟩

/-! ## Claim theorems -/

/-- C1: the claim says that on an all-zero-weight candidate set (including
a single zero-weight candidate) the selection step returns the unassigned
outcome and never raises.  The code instead raises `ValueError` from
`operators, weights = zip(*[...])` unpacking an empty list whenever
candidates exist but none has positive weight: at `zeroWeightDb` (one
active zero-weight link — Scenario B of the spec) the candidate set is a
non-empty all-zero-weight singleton and `create_appeal` errors for every
random draw and timestamp. -/
theorem c1_all_zero_weight_raises :
    candidates zeroWeightDb 1 ≠ [] ∧
    (candidates zeroWeightDb 1).all (fun c => c.2 == 0) = true ∧
    ∀ (r : Nat) (ts : String),
      (create_appeal zeroWeightDb ⟨"x", 1, none⟩ r ts).2 = .error () :=
  ⟨by decide, by decide, fun _ _ => rfl⟩

/-- C2: the claim says each positive-weight candidate `i` is selected with
probability `weight_i / W`, ties resolved purely by the random draw.  At
`tieDb` both candidates have weight 5 (so W = 10 and each should be picked
with probability 1/2), but `weights.index(chosen_weight)` maps the drawn
weight value back to its FIRST index, so every draw selects operator 1 and
operator 2 is selected with probability 0. -/
theorem c2_tie_never_selects_second :
    ((candidates tieDb 1).map (fun c => (c.1.id, c.2)) = [(1, 5), (2, 5)]) ∧
    ∀ r : Nat, selectOperator (candidates tieDb 1) r = .ok (some 1) := by
  constructor
  · decide
  · intro r
    have hc : candidates tieDb 1 =
        [(⟨1, "o1", true, 5⟩, 5), (⟨2, "o2", true, 5⟩, 5)] := by decide
    rw [hc]
    show Except.ok (some (([1, 2] : List Int).getD
        (([5, 5] : List Int).indexOf (drawWeight [5, 5] (r % 10))) 0)) =
      Except.ok (some 1)
    rw [drawWeight_pair]
    rfl

/-- C6: a `source_id` with no affinity rows (in particular one referencing
no existing source) yields an empty candidate set, and `create_appeal`
returns a persisted appeal with `operator_id = none` instead of raising;
moreover the selection step on an empty candidate set always yields the
unassigned outcome. -/
theorem c6_unknown_source_unassigned (db : DB) (req : AppealCreate) (r : Nat)
    (ts : String)
    (h : ∀ os ∈ db.operatorSources, os.source_id ≠ req.source_id) :
    candidates db req.source_id = [] ∧
    (∀ r2 : Nat, selectOperator [] r2 = .ok none) ∧
    ∃ ap, (create_appeal db req r ts).2 = .ok ap ∧ ap.operator_id = none := by
  have h1 : candidates db req.source_id = [] := by
    unfold candidates
    rw [List.flatMap_eq_nil_iff]
    intro op _
    rw [List.filterMap_eq_nil_iff]
    intro os hos
    rw [if_neg]
    simp only [Bool.and_eq_true, beq_iff_eq]
    rintro ⟨⟨⟨-, hsid⟩, -⟩, -⟩
    exact h os hos hsid
  have hc1 : candidates ((findOrCreateLead db req.external_id).1) req.source_id
      = [] := by
    rw [candidates_findOrCreateLead]
    exact h1
  refine ⟨h1, fun _ => rfl, ?_⟩
  simp only [create_appeal, appealReadPhase]
  rw [hc1]
  exact ⟨_, rfl, rfl⟩

/-- C6 witness: on the empty database, `source_id = 9` resolves to no
candidates and the call succeeds unassigned. -/
theorem c6_witness :
    ∃ ap, (create_appeal emptyDb ⟨"x", 9, none⟩ 0 "t").2 = .ok ap ∧
      ap.operator_id = none :=
  (c6_unknown_source_unassigned emptyDb ⟨"x", 9, none⟩ 0 "t" (by decide)).2.2

/-- C8: `create_appeal` leaves the operator, source and affinity tables
unchanged in every case — the assignment path only ever writes lead and
appeal rows. -/
theorem c8_assignment_path_frame (db : DB) (req : AppealCreate) (r : Nat)
    (ts : String) :
    ((create_appeal db req r ts).1).operators = db.operators ∧
    ((create_appeal db req r ts).1).sources = db.sources ∧
    ((create_appeal db req r ts).1).operatorSources = db.operatorSources := by
  obtain ⟨h1, h2, h3, -, -⟩ := findOrCreateLead_frame db req.external_id
  simp only [create_appeal, appealReadPhase]
  cases selectOperator
      (candidates ((findOrCreateLead db req.external_id).1) req.source_id) r <;>
    simp [appealWritePhase, h1, h2, h3]

/-- C9: an operator with no appeal rows at all is admitted by the capacity
filter through the `NULL`-load branch of the outer join, whatever its
`max_load` — it suffices to be active and linked to the source. -/
theorem c9_null_load_admits (db : DB) (src : Int) (op : Operator)
    (os : OperatorSource) (hop : op ∈ db.operators) (hact : op.is_active = true)
    (hload : loadOf db op.id = 0) (hos : os ∈ db.operatorSources)
    (hoid : os.operator_id = op.id) (hsid : os.source_id = src) :
    (op, os.weight) ∈ candidates db src :=
  (mem_candidates_iff db src op os.weight).2
    ⟨hop, hact, (capacityOk_iff db op).2 (Or.inr hload), os, hos, hoid, hsid, rfl⟩

/-- C9 witness: the active operator with `max_load = 0` and no prior
appeals is a candidate and is in fact selected and assigned. -/
theorem c9_witness :
    ((⟨1, "o1", true, 0⟩ : Operator), (3 : Int)) ∈ candidates zeroMaxLoadDb 1 ∧
    (create_appeal zeroMaxLoadDb ⟨"x", 1, none⟩ 0 "t").2 =
      .ok ⟨1, 1, 1, some 1, "t", none⟩ :=
  ⟨c9_null_load_admits zeroMaxLoadDb 1 ⟨1, "o1", true, 0⟩ ⟨1, 1, 1, 3⟩
      (by decide) rfl (by decide) (by decide) rfl rfl, rfl⟩

/-- C10: `list_operator_sources` with `source_id = 0` applies no filter
(Python's `if source_id:` treats 0 as absent), exactly like omitting the
parameter, while any non-zero `source_id` filters to rows with that
source. -/
theorem c10_zero_source_id_unfiltered (db : DB) (s : Int) (hs : s ≠ 0) :
    list_operator_sources db (some 0) = db.operatorSources ∧
    list_operator_sources db none = list_operator_sources db (some 0) ∧
    list_operator_sources db (some s) =
      db.operatorSources.filter (fun os => os.source_id == s) := by
  refine ⟨?_, ?_, ?_⟩ <;> simp [list_operator_sources, hs]

/-- C10 witness at a concrete database and `source_id = 1`. -/
theorem c10_witness :
    list_operator_sources tieDb (some 0) = tieDb.operatorSources ∧
    list_operator_sources tieDb none = list_operator_sources tieDb (some 0) ∧
    list_operator_sources tieDb (some 1) =
      tieDb.operatorSources.filter (fun os => os.source_id == 1) :=
  c10_zero_source_id_unfiltered tieDb 1 (by decide)

/-- C3 counterexample: in `zeroMaxLoadDb`, operator 1 is active and linked
but does NOT satisfy `current load < max_load` (its load 0 is not below its
`max_load` 0); the claim says the candidate set contains exactly the
operators satisfying that predicate, yet operator 1 is a candidate — the
NULL-load branch admits it. -/
theorem c3_cex_zero_max_load :
    ((⟨1, "o1", true, 0⟩ : Operator), (3 : Int)) ∈ candidates zeroMaxLoadDb 1 ∧
    ¬ ((loadOf zeroMaxLoadDb 1 : Int) <
        (Operator.max_load ⟨1, "o1", true, 0⟩)) := by
  decide

/-- C3 (amended): the candidate set contains exactly the operators that are
active, linked to the source by an affinity row, and either strictly under
capacity or without any appeal rows (the NULL-load branch of the outer
join); when every `max_load` is positive this coincides with the claimed
`load < max_load`.  Zero-weight links are included (the characterization
puts no constraint on the weight).  And an inactive operator is never
assigned: every successful assigned `create_appeal` names a stored, active
operator. -/
theorem c3_candidate_set_characterization :
    (∀ (db : DB) (src : Int) (op : Operator) (w : Int),
      (op, w) ∈ candidates db src ↔
        op ∈ db.operators ∧ op.is_active = true ∧
        ((loadOf db op.id : Int) < op.max_load ∨ loadOf db op.id = 0) ∧
        ∃ os, os ∈ db.operatorSources ∧ os.operator_id = op.id ∧
          os.source_id = src ∧ os.weight = w) ∧
    (∀ (db : DB) (req : AppealCreate) (r : Nat) (ts : String) (ap : Appeal)
        (i : Int),
      (create_appeal db req r ts).2 = .ok ap → ap.operator_id = some i →
      ∃ op, op ∈ db.operators ∧ op.id = i ∧ op.is_active = true) := by
  constructor
  · intro db src op w
    rw [mem_candidates_iff, capacityOk_iff]
  · intro db req r ts ap i hok hop
    simp only [create_appeal, appealReadPhase] at hok
    cases hsel : selectOperator
        (candidates ((findOrCreateLead db req.external_id).1) req.source_id) r with
    | error e =>
        rw [hsel] at hok
        simp [appealWritePhase] at hok
    | ok opId =>
        rw [hsel] at hok
        simp only [appealWritePhase, Except.ok.injEq] at hok
        subst hok
        have hopId : opId = some i := hop
        rw [hopId] at hsel
        obtain ⟨c, hc, hcid, -⟩ := selectOperator_ok_some _ _ _ hsel
        rw [candidates_findOrCreateLead] at hc
        obtain ⟨hcop, hcact, -, -⟩ :=
          (mem_candidates_iff db req.source_id c.1 c.2).1 hc
        exact ⟨c.1, hcop, hcid, hcact⟩

/-- C3 witness: the characterization evaluated at `zeroMaxLoadDb` (showing
a zero-load operator admitted), and the inactivity guarantee applied to a
concrete successful assignment. -/
theorem c3_witness :
    (((⟨1, "o1", true, 0⟩ : Operator), (3 : Int)) ∈ candidates zeroMaxLoadDb 1) ∧
    ∃ op, op ∈ zeroMaxLoadDb.operators ∧ op.id = 1 ∧ op.is_active = true :=
  ⟨(c3_candidate_set_characterization.1 zeroMaxLoadDb 1 ⟨1, "o1", true, 0⟩ 3).2
      (by decide),
    c3_candidate_set_characterization.2 zeroMaxLoadDb ⟨"x", 1, none⟩ 0 "t"
      ⟨1, 1, 1, some 1, "t", none⟩ 1 rfl rfl⟩

/-- C4 counterexample: operator 1 in `zeroMaxLoadDb` has load 0 equal to
its `max_load` 0 exactly, yet it is NOT excluded from the candidate set —
the NULL-load branch admits every operator without appeal rows. -/
theorem c4_cex_full_but_admitted :
    (loadOf zeroMaxLoadDb 1 : Int) = (Operator.max_load ⟨1, "o1", true, 0⟩) ∧
    ((⟨1, "o1", true, 0⟩ : Operator), (3 : Int)) ∈ candidates zeroMaxLoadDb 1 := by
  decide

/-- C4 (amended): an operator with at least one appeal row whose load
equals `max_load` exactly is excluded from every candidate set; once one of
its appeals is released (modelled from the spec as deleting one of its
appeal rows, since the repository stores no completion signal), its load
drops strictly below `max_load` and the capacity filter admits it again. -/
theorem c4_full_operator_excluded_until_release (db : DB) (op : Operator)
    (hpos : 1 ≤ loadOf db op.id)
    (heq : (loadOf db op.id : Int) = op.max_load) :
    (∀ (src w : Int), (op, w) ∉ candidates db src) ∧
    (loadOf (releaseOne db op.id) op.id : Int) < op.max_load ∧
    capacityOk (releaseOne db op.id) op = true := by
  have hrel := loadOf_releaseOne db op.id hpos
  have hlt : (loadOf (releaseOne db op.id) op.id : Int) < op.max_load := by
    omega
  refine ⟨?_, hlt, (capacityOk_iff _ _).2 (Or.inl hlt)⟩
  intro src w hmem
  obtain ⟨-, -, hcap, -⟩ := (mem_candidates_iff db src op w).1 hmem
  rcases (capacityOk_iff db op).1 hcap with hlt2 | hz
  · omega
  · omega

/-- C4 witness: in `fullDb` operator 1 is at load 1 = `max_load` and is no
candidate; after releasing its appeal the capacity filter admits it. -/
theorem c4_witness :
    (((⟨1, "o1", true, 1⟩ : Operator), (2 : Int)) ∉ candidates fullDb 1) ∧
    (loadOf (releaseOne fullDb 1) 1 : Int) < 1 ∧
    capacityOk (releaseOne fullDb 1) ⟨1, "o1", true, 1⟩ = true := by
  obtain ⟨h1, h2, h3⟩ :=
    c4_full_operator_excluded_until_release fullDb ⟨1, "o1", true, 1⟩
      (by decide) (by decide)
  exact ⟨h1 1 2, h2, h3⟩

/-- C5: the code has no concurrency guard.  Splitting each `create_appeal`
at its real commit boundary (candidate SELECT, then appeal INSERT+COMMIT)
and interleaving two requests so that both read before either writes: in
`oneSlotDb` (operator 1 with `max_load` 2 at load 1, one free slot) both
requests pass the capacity filter, both are assigned to operator 1, and the
committed load reaches 3 > `max_load` — both claimed the last slot. -/
theorem c5_interleaving_exceeds_max_load :
    oneSlotDb.operators.all
      (fun op => decide ((loadOf oneSlotDb op.id : Int) ≤ op.max_load)) = true ∧
    (interleavedRun oneSlotDb ⟨"a", 1, none⟩ ⟨"b", 1, none⟩ 0 0 "t1" "t2").2.1 =
      .ok ⟨2, 2, 1, some 1, "t1", none⟩ ∧
    (interleavedRun oneSlotDb ⟨"a", 1, none⟩ ⟨"b", 1, none⟩ 0 0 "t1" "t2").2.2 =
      .ok ⟨3, 3, 1, some 1, "t2", none⟩ ∧
    ∃ op, op ∈
        (interleavedRun oneSlotDb ⟨"a", 1, none⟩ ⟨"b", 1, none⟩ 0 0 "t1" "t2").1.operators ∧
      op.max_load <
        (loadOf (interleavedRun oneSlotDb ⟨"a", 1, none⟩ ⟨"b", 1, none⟩ 0 0 "t1" "t2").1
          op.id : Int) :=
  ⟨by decide, rfl, rfl, by decide⟩

/-- C7: two successful `create_appeal` calls with the same `external_id`
(and the same request, hence the same `source_id`) create at most one new
lead — the second call reuses the first call's lead, so both appeals carry
the same `lead_id` — while appending two distinct appeal rows. -/
theorem c7_lead_dedup_two_appeals (db : DB) (req : AppealCreate)
    (r1 r2 : Nat) (ts1 ts2 : String) (db1 db2 : DB) (a1 a2 : Appeal)
    (h1 : create_appeal db req r1 ts1 = (db1, .ok a1))
    (h2 : create_appeal db1 req r2 ts2 = (db2, .ok a2)) :
    db2.leads = db1.leads ∧
    db1.leads.length ≤ db.leads.length + 1 ∧
    a1.lead_id = a2.lead_id ∧
    db2.appeals = db.appeals ++ [a1] ++ [a2] ∧
    a1.id ≠ a2.id := by
  obtain ⟨hid1, hlid1, hleads1, happ1, hnext1⟩ :=
    create_appeal_ok_shape _ _ _ _ _ _ h1
  obtain ⟨hid2, hlid2, hleads2, happ2, hnext2⟩ :=
    create_appeal_ok_shape _ _ _ _ _ _ h2
  have hfound : db1.leads.find? (fun l => l.external_id == req.external_id) =
      some (findOrCreateLead db req.external_id).2 := by
    rw [hleads1]
    exact findOrCreateLead_self_found db req.external_id
  have hfc2 : findOrCreateLead db1 req.external_id =
      (db1, (findOrCreateLead db req.external_id).2) :=
    findOrCreateLead_found db1 req.external_id _ hfound
  refine ⟨?_, ?_, ?_, ?_, ?_⟩
  · rw [hleads2, hfc2]
  · rw [hleads1]
    exact findOrCreateLead_leads_length db req.external_id
  · rw [hlid1, hlid2, hfc2]
  · rw [happ2, happ1]
  · rw [hid1, hid2, hnext1]
    omega

/-- C7 witness: two calls with external id `"x"` on the empty database —
one lead, two appeals with the same `lead_id` and distinct ids. -/
theorem c7_witness :
    (⟨[], [], [], [⟨1, "x"⟩], [⟨1, 1, 9, none, "t1", none⟩,
        ⟨2, 1, 9, none, "t2", none⟩], 2, 3⟩ : DB).leads =
      (⟨[], [], [], [⟨1, "x"⟩], [⟨1, 1, 9, none, "t1", none⟩], 2, 2⟩ : DB).leads ∧
    (⟨[], [], [], [⟨1, "x"⟩], [⟨1, 1, 9, none, "t1", none⟩], 2, 2⟩ : DB).leads.length ≤
      emptyDb.leads.length + 1 ∧
    (⟨1, 1, 9, none, "t1", none⟩ : Appeal).lead_id =
      (⟨2, 1, 9, none, "t2", none⟩ : Appeal).lead_id ∧
    (⟨[], [], [], [⟨1, "x"⟩], [⟨1, 1, 9, none, "t1", none⟩,
        ⟨2, 1, 9, none, "t2", none⟩], 2, 3⟩ : DB).appeals =
      emptyDb.appeals ++ [⟨1, 1, 9, none, "t1", none⟩] ++
        [⟨2, 1, 9, none, "t2", none⟩] ∧
    (⟨1, 1, 9, none, "t1", none⟩ : Appeal).id ≠
      (⟨2, 1, 9, none, "t2", none⟩ : Appeal).id :=
  c7_lead_dedup_two_appeals emptyDb ⟨"x", 9, none⟩ 0 0 "t1" "t2"
    ⟨[], [], [], [⟨1, "x"⟩], [⟨1, 1, 9, none, "t1", none⟩], 2, 2⟩
    ⟨[], [], [], [⟨1, "x"⟩], [⟨1, 1, 9, none, "t1", none⟩,
      ⟨2, 1, 9, none, "t2", none⟩], 2, 3⟩
    ⟨1, 1, 9, none, "t1", none⟩ ⟨2, 1, 9, none, "t2", none⟩ rfl rfl

end MiniCRM
